import Mathlib

/-!
Verification of the page-comparison engine of the grok-what repository.

The engine lives in `src/comparators/page_comparator.py` (class
`PageComparator`) with an adjacent analyzer in
`src/analyzers/metrics_analyzer.py` (class `MetricsAnalyzer`), operating on
`PageContent` records from `src/scrapers/base_scraper.py`.

Python strings are modelled as `List Char`, Python floats as `ℚ` (the values
involved are small exact decimals, where float and rational comparison
agree), and Python ints as `Nat`/`Int`.  The comparator delegates text
similarity to the standard library `difflib.SequenceMatcher` (constructed
with `isjunk = None`), which is modelled here faithfully, including the
autojunk "popular element" purge of `__chain_b`; it delegates raw diffing to
the third-party `diff_match_patch` library, which is modelled abstractly as
a structure producing diff op-lists, with its documented output invariant
(`ValidDiff`): equalities plus deletions concatenate to the first text, and
equalities plus insertions concatenate to the second text.
-/

/-! ### Small Python-string helpers -/

/-- The whitespace class used by Python `str.split()` with no argument
(space, tab, newline, carriage return, vertical tab, form feed). -/
def pyIsSpace (c : Char) : Bool :=
  c = ' ' || c = '\t' || c = '\n' || c = '\r' || c = '\x0b' || c = '\x0c'

/-- Python `str.split()`: split on runs of whitespace, dropping empty
pieces. -/
def splitWs (s : List Char) : List (List Char) :=
  (s.splitOnP pyIsSpace).filter (· ≠ [])

/-- Does `hay` begin with `pat`? -/
def beginsWith : List Char → List Char → Bool
  | _, [] => true
  | [], _ :: _ => false
  | h :: hs, p :: ps => h = p && beginsWith hs ps

/-- Fuelled scanning loop behind `countSubstr`.  Every recursive call
strictly shortens `hay`, so any fuel above `hay.length` makes the fuel
guard unreachable. -/
def countSubstrF : Nat → List Char → List Char → Nat
  | 0, _, _ => 0
  | fuel + 1, hay, pat =>
    if pat = [] then hay.length + 1
    else
      match hay with
      | [] => 0
      | c :: rest =>
        if beginsWith (c :: rest) pat then
          1 + countSubstrF fuel ((c :: rest).drop pat.length) pat
        else countSubstrF fuel rest pat

/-- Python `str.count(sub)`: number of non-overlapping occurrences of `pat`
in `hay`, scanning left to right.  (Python returns `len + 1` for an empty
pattern.) -/
def countSubstr (hay pat : List Char) : Nat :=
  countSubstrF (hay.length + 1) hay pat

/-! ### Model of difflib.SequenceMatcher (isjunk = None, autojunk = True)

`__chain_b` builds `b2j`, the map from element to its ascending list of
indices in `b`, and (since `autojunk` defaults to `True`) purges "popular"
elements when `len(b) >= 200`: those occurring more than `len(b) // 100 + 1`
times.  With `isjunk = None` the junk set `bjunk` is empty, so the two
junk-extension loops of `find_longest_match` can never fire and are omitted;
the two non-junk extension loops have a vacuously true junk test and reduce
to plain character-equality extension. -/

/-- An element of `b` is "popular" (purged from `b2j` by autojunk). -/
def popularB (b : List Char) : Char → Bool :=
  fun c => decide (200 ≤ b.length) && decide (b.length / 100 + 1 < b.count c)

/-- Position pair `(i, j)` is matchable in the inner loop of
`find_longest_match`: `a[i]` equals `b[j]` and `b[j]` survived the popular
purge (so `j` is listed in `b2j[a[i]]`). -/
def eligible (a b : List Char) (pop : Char → Bool) (i j : Nat) : Bool :=
  match a.get? i, b.get? j with
  | some x, some y => x = y && !pop y
  | _, _ => false

/-- Functional reading of the `j2len` dynamic program of
`find_longest_match`: the length of the longest run of matchable pairs
ending at `(i, j)` and staying inside `i ≥ alo`, `j ≥ blo` (the inner loop
skips `j < blo`, and `j2len` holds exactly these run lengths from the
previous row). -/
def runLen (a b : List Char) (pop : Char → Bool) (alo blo : Nat) :
    Nat → Nat → Nat
  | 0, j =>
    if 0 < alo || j < blo then 0
    else if eligible a b pop 0 j then 1 else 0
  | i + 1, j =>
    if i + 1 < alo || j < blo then 0
    else if eligible a b pop (i + 1) j then
      match j with
      | 0 => 1
      | j' + 1 =>
        if i + 1 = alo || j' + 1 = blo then 1
        else runLen a b pop alo blo i j' + 1
    else 0

/-- The running best block of `find_longest_match`: start indices in `a` and
`b`, and size. -/
structure FLMState where
  bi : Nat
  bj : Nat
  bs : Nat
deriving Repr, DecidableEq

/-- One step of the inner loop of `find_longest_match`: at pair `(i, j)`,
update the best block when the run ending there strictly beats it (source:
`if k > bestsize`).  Pairs that are not matchable have run length 0 and
never update, so folding over every `j` in `[blo, bhi)` agrees with folding
over the ascending `b2j[a[i]]` entries of the source. -/
def stepPair (a b : List Char) (pop : Char → Bool) (alo blo : Nat) (i : Nat)
    (s : FLMState) (j : Nat) : FLMState :=
  let k := runLen a b pop alo blo i j
  if s.bs < k then ⟨i + 1 - k, j + 1 - k, k⟩ else s

/-- The double scan loop of `find_longest_match` (rows `i` ascending, inner
`j` ascending), starting from `(alo, blo, 0)`. -/
def flmScan (a b : List Char) (pop : Char → Bool) (alo ahi blo bhi : Nat) :
    FLMState :=
  (List.range' alo (ahi - alo)).foldl
    (fun s i => (List.range' blo (bhi - blo)).foldl (stepPair a b pop alo blo i) s)
    ⟨alo, blo, 0⟩

/-- Do `a[i]` and `b[j]` hold equal characters? (Both in range.) -/
def charsMatch (a b : List Char) (i j : Nat) : Bool :=
  match a.get? i, b.get? j with
  | some x, some y => x = y
  | _, _ => false

/-- Fuelled body of the leftward extension loop. -/
def extendLeftF (a b : List Char) (alo blo : Nat) : Nat → FLMState → FLMState
  | 0, s => s
  | fuel + 1, s =>
    if alo < s.bi ∧ blo < s.bj ∧ charsMatch a b (s.bi - 1) (s.bj - 1) then
      extendLeftF a b alo blo fuel ⟨s.bi - 1, s.bj - 1, s.bs + 1⟩
    else s

/-- First extension loop of `find_longest_match`: grow the best block
leftwards while the preceding characters agree (the `not isbjunk` test is
vacuous for `isjunk = None`).  Each iteration decrements `bi` and the guard
requires `alo < bi`, so fuel `s.bi` is never exhausted before the guard
fails. -/
def extendLeft (a b : List Char) (alo blo : Nat) (s : FLMState) : FLMState :=
  extendLeftF a b alo blo s.bi s

/-- Fuelled body of the rightward extension loop. -/
def extendRightF (a b : List Char) (ahi bhi : Nat) : Nat → FLMState → FLMState
  | 0, s => s
  | fuel + 1, s =>
    if s.bi + s.bs < ahi ∧ s.bj + s.bs < bhi ∧
        charsMatch a b (s.bi + s.bs) (s.bj + s.bs) then
      extendRightF a b ahi bhi fuel ⟨s.bi, s.bj, s.bs + 1⟩
    else s

/-- Second extension loop of `find_longest_match`: grow the best block
rightwards while the following characters agree.  Each iteration increments
`bs` and the guard requires `bi + bs < ahi`, so fuel `ahi - (bi + bs)` is
never exhausted before the guard fails. -/
def extendRight (a b : List Char) (ahi bhi : Nat) (s : FLMState) : FLMState :=
  extendRightF a b ahi bhi (ahi - (s.bi + s.bs)) s

/-- `find_longest_match` on `a[alo:ahi]` and `b[blo:bhi]`: scan, then the
two extension loops (the junk-extension loops are unreachable with
`isjunk = None`). -/
def findLongestMatch (a b : List Char) (pop : Char → Bool)
    (alo ahi blo bhi : Nat) : FLMState :=
  extendRight a b ahi bhi (extendLeft a b alo blo (flmScan a b pop alo ahi blo bhi))

/-- Total size of the matching blocks found by the recursive region
splitting of `get_matching_blocks`.  The source processes regions through an
explicit queue and then sorts and merges adjacent blocks; neither the
processing order nor the merge changes the total size, which is all
`ratio()` consumes.  `fuel` bounds the recursion depth; the top-level call
supplies more than the combined region size, which bounds the depth. -/
def totalMatches (a b : List Char) (pop : Char → Bool) :
    Nat → Nat → Nat → Nat → Nat → Nat
  | 0, _, _, _, _ => 0
  | fuel + 1, alo, ahi, blo, bhi =>
    let m := findLongestMatch a b pop alo ahi blo bhi
    if m.bs = 0 then 0
    else
      m.bs
        + (if alo < m.bi ∧ blo < m.bj then
            totalMatches a b pop fuel alo m.bi blo m.bj else 0)
        + (if m.bi + m.bs < ahi ∧ m.bj + m.bs < bhi then
            totalMatches a b pop fuel (m.bi + m.bs) ahi (m.bj + m.bs) bhi else 0)

/-- difflib `_calculate_ratio`: `2.0 * matches / length` when `length` is
nonzero, else `1.0`. -/
def calcRatioQ (m length : Nat) : ℚ :=
  if length ≠ 0 then 2 * (m : ℚ) / (length : ℚ) else 1

/-- `SequenceMatcher(None, a, b).ratio()`. -/
def seqRatio (a b : List Char) : ℚ :=
  calcRatioQ
    (totalMatches a b (popularB b) (a.length + b.length + 1) 0 a.length 0 b.length)
    (a.length + b.length)

/-- `PageComparator._calculate_text_similarity`: 0.0 when either text is
empty, else the `SequenceMatcher` ratio of the lowercased texts. -/
def calculateTextSimilarity (text1 text2 : List Char) : ℚ :=
  if text1 = [] ∨ text2 = [] then 0
  else seqRatio (text1.map Char.toLower) (text2.map Char.toLower)

/-! ### Similarity categorization and section comparison -/

/-- `PageComparator._categorize_similarity`: three-way bucket with lower
bounds inclusive. -/
def categorizeSimilarity (similarity : ℚ) : String :=
  if 85 / 100 ≤ similarity then "high"
  else if 60 / 100 ≤ similarity then "medium"
  else "low"

/-- Section titles (dict keys) of a sections mapping, as a finite set. -/
def sectionKeys (sections : List (String × String)) : Finset String :=
  (sections.map Prod.fst).toFinset

/-- `PageComparator._calculate_section_overlap`: 0.0 when either mapping is
empty, else Jaccard similarity of the key-sets (with a further guard on an
empty union). -/
def calculateSectionOverlap (sections1 sections2 : List (String × String)) : ℚ :=
  if sections1 = [] ∨ sections2 = [] then 0
  else
    let inter := (sectionKeys sections1 ∩ sectionKeys sections2).card
    let union := (sectionKeys sections1 ∪ sectionKeys sections2).card
    if 0 < union then (inter : ℚ) / (union : ℚ) else 0

/-- `PageComparator._find_unique_sections`: `sorted(list(set1 - set2))`. -/
def findUniqueSections (sections1 sections2 : List (String × String)) : List String :=
  (sectionKeys sections1 \ sectionKeys sections2).sort (· ≤ ·)

/-! ### Model of the diff_match_patch dependency

`diff_main` returns a list of `(op, text)` pairs with op −1 (`DIFF_DELETE`:
text present only in the first argument), 1 (`DIFF_INSERT`: present only in
the second argument) or 0 (`DIFF_EQUAL`); `diff_cleanupSemantic` rewrites
such a list in place.  Both are third-party code, modelled abstractly as a
structure, with the library's documented output invariant `ValidDiff`
(its `diff_text1`/`diff_text2` reconstruction functions). -/

/-- A diff: list of `(op, text)` pairs. -/
abbrev DiffList := List (Int × List Char)

/-- dmp `diff_text1`: concatenation of equalities and deletions gives back
the first ("source") text. -/
def diffText1 (d : DiffList) : List Char :=
  ((d.filter fun p => p.1 ≠ 1).map Prod.snd).flatten

/-- dmp `diff_text2`: concatenation of equalities and insertions gives back
the second text. -/
def diffText2 (d : DiffList) : List Char :=
  ((d.filter fun p => p.1 ≠ -1).map Prod.snd).flatten

/-- The documented shape of a `diff_main` result for `(text1, text2)` (also
preserved by `diff_cleanupSemantic`). -/
def ValidDiff (text1 text2 : List Char) (d : DiffList) : Prop :=
  (∀ p ∈ d, p.1 = 0 ∨ p.1 = -1 ∨ p.1 = 1) ∧
    diffText1 d = text1 ∧ diffText2 d = text2

instance (text1 text2 : List Char) (d : DiffList) :
    Decidable (ValidDiff text1 text2 d) := by
  unfold ValidDiff; infer_instance

/-- The two library entry points the comparator calls on its `self.dmp`
object. -/
structure DiffMatchPatch where
  diff_main : List Char → List Char → DiffList
  diff_cleanupSemantic : DiffList → DiffList

/-- dmp `diff_levenshtein` accumulator loop. -/
def levLoop : DiffList → Nat → Nat → Nat → Nat
  | [], lev, insertions, deletions => lev + max insertions deletions
  | (op, data) :: rest, lev, insertions, deletions =>
    if op = 1 then levLoop rest lev (insertions + data.length) deletions
    else if op = -1 then levLoop rest lev insertions (deletions + data.length)
    else levLoop rest (lev + max insertions deletions) 0 0

/-- dmp `diff_levenshtein`. -/
def diffLevenshtein (d : DiffList) : Nat := levLoop d 0 0 0

/-- `PageComparator._calculate_levenshtein_distance`: distance over the
first 10000 characters of each text. -/
def calculateLevenshtein (dmp : DiffMatchPatch) (text1 text2 : List Char) : Nat :=
  diffLevenshtein (dmp.diff_main (text1.take 10000) (text2.take 10000))

/-! ### Diff segments -/

/-- The `DiffSegment` dataclass. -/
structure DiffSegment where
  type : String
  grokipedia_text : List Char
  wikipedia_text : List Char
  position : Nat
deriving Repr, DecidableEq

/-- The segment-building loop of `PageComparator._generate_diff_segments`:
op 0 becomes an `equal` segment carrying the text on both sides; op −1
becomes a `delete` segment with empty Grokipedia text and the chunk as
Wikipedia text; any other op becomes an `insert` segment with the chunk as
Grokipedia text and empty Wikipedia text.  Each side is truncated to 500
characters and `position` accumulates full chunk lengths. -/
def segLoop : DiffList → Nat → List DiffSegment
  | [], _ => []
  | (op, text) :: rest, position =>
    let seg : DiffSegment :=
      if op = 0 then ⟨"equal", text.take 500, text.take 500, position⟩
      else if op = -1 then ⟨"delete", [], text.take 500, position⟩
      else ⟨"insert", text.take 500, [], position⟩
    seg :: segLoop rest (position + text.length)

/-- Segments from a already-computed diff, keeping at most the first
`100` entries (`max_segments`). -/
def segmentsFromDiffs (diffs : DiffList) : List DiffSegment :=
  segLoop (diffs.take 100) 0

/-- `PageComparator._generate_diff_segments`: semantic-cleaned `diff_main`
output, segmented. -/
def generateDiffSegments (dmp : DiffMatchPatch) (text1 text2 : List Char) :
    List DiffSegment :=
  segmentsFromDiffs (dmp.diff_cleanupSemantic (dmp.diff_main text1 text2))

/-! ### Page records and the comparison result -/

/-- The `PageContent` dataclass of `base_scraper.py`, restricted to the
fields the comparator and the claims read (`raw_html`, `images`,
`categories` and `metadata` are never consulted by the comparison engine).
Citations are opaque records beyond their count; `last_modified` is an
opaque timestamp. -/
structure PageContent where
  title : String
  url : String := ""
  text_content : List Char := []
  sections : List (String × String) := []
  citations : List (List (String × String)) := []
  infobox : Option (List (String × String)) := none
  external_links : List String := []
  last_modified : Option Nat := none
  word_count : Nat := 0

/-- `PageContent.__post_init__`: derive `word_count` from `text_content`
when it was not independently supplied. -/
def applyPostInit (p : PageContent) : PageContent :=
  if p.word_count = 0 ∧ p.text_content ≠ [] then
    { p with word_count := (splitWs p.text_content).length }
  else p

/-- The `ComparisonResult` dataclass (without the wall-clock `timestamp`
field, which no logic reads). -/
structure ComparisonResult where
  topic : String
  grokipedia_page : PageContent
  wikipedia_page : PageContent
  text_similarity : ℚ := 0
  levenshtein_distance : Nat := 0
  diff_segments : List DiffSegment := []
  word_count_diff : ℤ := 0
  word_count_diff_pct : ℚ := 0
  section_overlap : ℚ := 0
  unique_to_grokipedia : List String := []
  unique_to_wikipedia : List String := []
  citation_count_grokipedia : Nat := 0
  citation_count_wikipedia : Nat := 0
  citation_diff : ℤ := 0
  has_infobox_grokipedia : Bool := false
  has_infobox_wikipedia : Bool := false
  external_links_grokipedia : Nat := 0
  external_links_wikipedia : Nat := 0
  recency_grokipedia : Option Nat := none
  recency_wikipedia : Option Nat := none
  similarity_category : String := ""
  key_differences : List String := []

/-! ### Fixed-point formatting of the summary strings

Python renders `f"{x:.1f}"` and `f"{x:.2%}"` on floats; on the exact
rational stand-ins this is rounding half-to-even at the given number of
decimals.  (The two renditions can differ only on values whose float image
straddles a rounding boundary; no claim depends on rendered digits.) -/

/-- Round the fraction `num / den` (`den > 0`) half-to-even to an integer,
in pure integer arithmetic: `f` is the floor and `r2 / den` (with
`r2 = 2 (num − f·den)`) twice the fractional part. -/
def fracRoundHalfEven (num den : ℤ) : ℤ :=
  let f := Int.fdiv num den
  let r2 := 2 * (num - f * den)
  if den < r2 then f + 1
  else if r2 < den then f
  else if f % 2 = 0 then f else f + 1

/-- Left-pad a digit string with zeros to length `d`. -/
def padZeros (s : String) (d : Nat) : String :=
  String.mk (List.replicate (d - s.length) '0') ++ s

/-- Python `f"{q:.df}"`: round `q·10^d` half-to-even (as the fraction
`q.num·10^d / q.den`) and print with `d` decimals. -/
def formatFixed (q : ℚ) (d : Nat) : String :=
  let n := fracRoundHalfEven (q.num * (10 : ℤ) ^ d) (q.den : ℤ)
  let sign := if n < 0 then "-" else ""
  let a := n.natAbs
  sign ++ toString (a / 10 ^ d) ++
    (if d = 0 then "" else "." ++ padZeros (toString (a % 10 ^ d)) d)

/-- Python `f"{q:.2%}"`: the value times 100 at two decimals, then `%`. -/
def formatPercent2 (q : ℚ) : String :=
  formatFixed (q * 100) 2 ++ "%"

/-! ### Key differences and compare -/

/-- `PageComparator._identify_key_differences`, translated block by block:
the conditional appends build the tail in order, and the overall-similarity
line is inserted at position 0 at the end. -/
def identifyKeyDifferences (result : ComparisonResult) : List String :=
  let lengthPart : List String :=
    if 25 < |result.word_count_diff_pct| then
      [if 0 < result.word_count_diff then
        "Grokipedia version is " ++ formatFixed |result.word_count_diff_pct| 1 ++
          "% longer (" ++ toString result.grokipedia_page.word_count ++ " vs " ++
          toString result.wikipedia_page.word_count ++ " words)"
      else
        "Wikipedia version is " ++ formatFixed |result.word_count_diff_pct| 1 ++
          "% longer (" ++ toString result.wikipedia_page.word_count ++ " vs " ++
          toString result.grokipedia_page.word_count ++ " words)"]
    else []
  let citationPart : List String :=
    if 5 < |result.citation_diff| then
      [if 0 < result.citation_diff then
        "Grokipedia has " ++ toString result.citation_diff ++ " more citations (" ++
          toString result.citation_count_grokipedia ++ " vs " ++
          toString result.citation_count_wikipedia ++ ")"
      else
        "Wikipedia has " ++ toString |result.citation_diff| ++ " more citations (" ++
          toString result.citation_count_wikipedia ++ " vs " ++
          toString result.citation_count_grokipedia ++ ")"]
    else []
  let uniqueGrokPart : List String :=
    if result.unique_to_grokipedia ≠ [] then
      ["Grokipedia has unique sections: " ++
        String.intercalate ", " (result.unique_to_grokipedia.take 3)]
    else []
  let uniqueWikiPart : List String :=
    if result.unique_to_wikipedia ≠ [] then
      ["Wikipedia has unique sections: " ++
        String.intercalate ", " (result.unique_to_wikipedia.take 3)]
    else []
  let infoboxPart : List String :=
    if result.has_infobox_grokipedia ≠ result.has_infobox_wikipedia then
      [if result.has_infobox_grokipedia then
        "Grokipedia has an infobox, Wikipedia does not"
      else "Wikipedia has an infobox, Grokipedia does not"]
    else []
  ("Text similarity: " ++ formatPercent2 result.text_similarity ++ " (" ++
      result.similarity_category ++ ")") ::
    (lengthPart ++ citationPart ++ uniqueGrokPart ++ uniqueWikiPart ++ infoboxPart)

/-- `PageComparator.compare`, field by field in source order; the library
object `self.dmp` is a parameter.  `key_differences` is computed last, from
the otherwise-complete result. -/
def compare (dmp : DiffMatchPatch) (grokipedia_page wikipedia_page : PageContent) :
    ComparisonResult :=
  let text_similarity :=
    calculateTextSimilarity grokipedia_page.text_content wikipedia_page.text_content
  let word_count_diff : ℤ :=
    (grokipedia_page.word_count : ℤ) - (wikipedia_page.word_count : ℤ)
  let result : ComparisonResult :=
    { topic := grokipedia_page.title
      grokipedia_page := grokipedia_page
      wikipedia_page := wikipedia_page
      text_similarity := text_similarity
      levenshtein_distance :=
        calculateLevenshtein dmp grokipedia_page.text_content wikipedia_page.text_content
      diff_segments :=
        generateDiffSegments dmp grokipedia_page.text_content wikipedia_page.text_content
      word_count_diff := word_count_diff
      word_count_diff_pct :=
        if 0 < wikipedia_page.word_count then
          ((word_count_diff : ℚ) / (wikipedia_page.word_count : ℚ)) * 100
        else 0
      section_overlap :=
        calculateSectionOverlap grokipedia_page.sections wikipedia_page.sections
      unique_to_grokipedia :=
        findUniqueSections grokipedia_page.sections wikipedia_page.sections
      unique_to_wikipedia :=
        findUniqueSections wikipedia_page.sections grokipedia_page.sections
      citation_count_grokipedia := grokipedia_page.citations.length
      citation_count_wikipedia := wikipedia_page.citations.length
      citation_diff :=
        (grokipedia_page.citations.length : ℤ) - (wikipedia_page.citations.length : ℤ)
      has_infobox_grokipedia := grokipedia_page.infobox.isSome
      has_infobox_wikipedia := wikipedia_page.infobox.isSome
      external_links_grokipedia := grokipedia_page.external_links.length
      external_links_wikipedia := wikipedia_page.external_links.length
      recency_grokipedia := grokipedia_page.last_modified
      recency_wikipedia := wikipedia_page.last_modified
      similarity_category := categorizeSimilarity text_similarity }
  { result with key_differences := identifyKeyDifferences result }

/-! ### MetricsAnalyzer bias metrics (adjacent analyzer of claim C5) -/

/-- `MetricsAnalyzer.LOADED_WORDS`. -/
def LOADED_WORDS : List String :=
  ["obviously", "clearly", "undoubtedly", "certainly", "definitely",
   "notorious", "infamous", "brilliant", "terrible", "amazing",
   "incredible", "outrageous", "shocking", "stunning", "remarkable"]

/-- `MetricsAnalyzer.HEDGE_WORDS`. -/
def HEDGE_WORDS : List String :=
  ["some say", "many believe", "it is said", "allegedly", "reportedly",
   "supposedly", "arguably", "possibly", "perhaps", "maybe",
   "some people", "critics argue", "supporters claim"]

/-- `MetricsAnalyzer.FIRST_PERSON`. -/
def FIRST_PERSON : List String :=
  ["i", "me", "my", "mine", "we", "us", "our", "ours"]

/-- Positive words of `MetricsAnalyzer._calculate_simple_sentiment`. -/
def positiveWords : List String :=
  ["good", "great", "excellent", "positive", "successful", "beneficial",
   "important", "significant", "valuable", "notable", "remarkable",
   "innovative", "leading", "prominent", "influential"]

/-- Negative words of `MetricsAnalyzer._calculate_simple_sentiment`. -/
def negativeWords : List String :=
  ["bad", "poor", "negative", "failed", "harmful", "detrimental",
   "insignificant", "minor", "controversial", "criticized", "disputed",
   "questionable", "problematic", "flawed", "inferior"]

/-- The `BiasMetrics` dataclass. -/
structure BiasMetrics where
  sentiment_polarity : ℚ := 0
  subjectivity_score : ℚ := 0
  loaded_language_count : Nat := 0
  first_person_count : Nat := 0
  hedge_words_count : Nat := 0
deriving Repr, DecidableEq

/-- `MetricsAnalyzer._calculate_simple_sentiment` (called on the lowercased
text): `(positive - negative) / total`, 0.0 when no sentiment words occur. -/
def calculateSimpleSentiment (textLower : List Char) : ℚ :=
  let positive_count := (positiveWords.map fun w => countSubstr textLower w.toList).sum
  let negative_count := (negativeWords.map fun w => countSubstr textLower w.toList).sum
  let total := positive_count + negative_count
  if total = 0 then 0
  else ((positive_count : ℚ) - (negative_count : ℚ)) / (total : ℚ)

/-- `MetricsAnalyzer.calculate_bias_metrics`: defaults on empty text;
substring counts for loaded and hedge language, split-token counts for first
person, simple sentiment, and a subjectivity ratio guarded on a zero word
count. -/
def calculateBiasMetrics (text : List Char) : BiasMetrics :=
  if text = [] then {}
  else
    let text_lower := text.map Char.toLower
    let loaded_language_count :=
      (LOADED_WORDS.map fun w => countSubstr text_lower w.toList).sum
    let words := splitWs text_lower
    let first_person_count :=
      (FIRST_PERSON.map fun p => words.count p.toList).sum
    let hedge_words_count :=
      (HEDGE_WORDS.map fun p => countSubstr text_lower p.toList).sum
    let sentiment_polarity := calculateSimpleSentiment text_lower
    let total_words := words.length
    let subjectivity_score : ℚ :=
      if 0 < total_words then
        min (((loaded_language_count + first_person_count + hedge_words_count : Nat) : ℚ)
              / (total_words : ℚ) * 10) 1
      else 0
    { sentiment_polarity := sentiment_polarity
      subjectivity_score := subjectivity_score
      loaded_language_count := loaded_language_count
      first_person_count := first_person_count
      hedge_words_count := hedge_words_count }

/-! ### Observables for the diff-segmentation round-trip claim -/

/-- Concatenation, in order, of the Grokipedia-side (source A) text of the
`equal` and `insert` segments. -/
def segsGrokSide (segs : List DiffSegment) : List Char :=
  ((segs.filter fun s => s.type == "equal" || s.type == "insert").map
    DiffSegment.grokipedia_text).flatten

/-- Concatenation, in order, of the Wikipedia-side (source B) text of the
`equal` and `delete` segments. -/
def segsWikiSide (segs : List DiffSegment) : List Char :=
  ((segs.filter fun s => s.type == "equal" || s.type == "delete").map
    DiffSegment.wikipedia_text).flatten

/-- Invariant of the scan loop of `find_longest_match` run on two copies of
`a`: after the rows below `r` have been scanned, the best block is diagonal,
lies inside the range `[0, n)`, and its size dominates every diagonal run
ending in a scanned row. -/
def ScanInv (a : List Char) (pop : Char → Bool) (n r : Nat) (s : FLMState) : Prop :=
  s.bi = s.bj ∧ s.bi + s.bs ≤ n ∧ ∀ d, d < r → runLen a a pop 0 0 d d ≤ s.bs

/-! ### Concrete fixtures for evaluating the model at specific inputs -/

/-- A concrete stand-in for the diff library: `diff_main` returns the
full-replacement diff (which satisfies `ValidDiff` for every text pair) and
the semantic cleanup is the identity. -/
def dmpFull : DiffMatchPatch :=
  ⟨fun text1 text2 => [(-1, text1), (1, text2)], id⟩

/-- A page with empty text, no sections, no citations, no infobox. -/
def pageEmpty : PageContent := { title := "Topic" }

/-- A comparison result whose only difference trigger is four sections
unique to Grokipedia. -/
def resultUniq4 : ComparisonResult :=
  { topic := "T", grokipedia_page := pageEmpty, wikipedia_page := pageEmpty
    unique_to_grokipedia := ["Alpha", "Beta", "Gamma", "Delta"] }

/-- Same as `resultUniq4` but with a fifth unique section. -/
def resultUniq5 : ComparisonResult :=
  { topic := "T", grokipedia_page := pageEmpty, wikipedia_page := pageEmpty
    unique_to_grokipedia := ["Alpha", "Beta", "Gamma", "Delta", "Epsilon"] }

/-- A page with a short nonempty text, sections and citations, used to
instantiate universally quantified theorems. -/
def pageAlpha : PageContent :=
  { title := "Alpha", text_content := "ab".toList
    sections := [("Intro", "i"), ("Main", "m")]
    citations := [[("id", "1")]]
    infobox := some []
    word_count := 2 }

/-- A second concrete page sharing `pageAlpha`'s text. -/
def pageBeta : PageContent :=
  { title := "Beta", text_content := "ab".toList
    sections := [("Intro", "i"), ("References", "r")]
    word_count := 4 }

/-! ### Supporting lemmas -/

/-- A nonempty section list has a nonempty key-set. -/
theorem sectionKeys_nonempty {s : List (String × String)} (h : s ≠ []) :
    (sectionKeys s).Nonempty := by
  match s, h with
  | p :: t, _ => exact ⟨p.1, by simp [sectionKeys]⟩

/-! ### Claim theorems -/

/-- Claim C1 (code bug): at texts A = "a", B = "b", the library diff is
`[(-1, "a"), (1, "b")]` (a valid diff: op −1 text occurs only in A, op 1
text only in B).  The segment generator labels the op 1 chunk `insert` but
stores B's text in the segment's Grokipedia field, and labels the op −1
chunk `delete` storing A's text in the Wikipedia field — opposite to the
sides its own comments and the spec describe.  Consequently concatenating
the A-side of `equal`+`insert` segments yields B, not A, and the B-side of
`equal`+`delete` yields A, not B. -/
theorem diffSegments_swap_sides_eval :
    ValidDiff "a".toList "b".toList [(-1, "a".toList), (1, "b".toList)] ∧
    segmentsFromDiffs [(-1, "a".toList), (1, "b".toList)] =
      [⟨"delete", [], "a".toList, 0⟩, ⟨"insert", "b".toList, [], 1⟩] ∧
    segsGrokSide (segmentsFromDiffs [(-1, "a".toList), (1, "b".toList)]) = "b".toList ∧
    segsWikiSide (segmentsFromDiffs [(-1, "a".toList), (1, "b".toList)]) = "a".toList ∧
    segsGrokSide (segmentsFromDiffs [(-1, "a".toList), (1, "b".toList)]) ≠ "a".toList ∧
    segsWikiSide (segmentsFromDiffs [(-1, "a".toList), (1, "b".toList)]) ≠ "b".toList := by
  decide

/-- Claim C2, counterexample: on two pages with the same empty text the
comparator returns similarity 0.0 and category "low", not 1.0 and "high" —
`_calculate_text_similarity` guards empty inputs before ever consulting the
sequence matcher. -/
theorem textSimilarity_empty_self_not_one :
    pageEmpty.text_content = ([] : List Char) ∧
    (compare dmpFull pageEmpty pageEmpty).text_similarity = 0 ∧
    (compare dmpFull pageEmpty pageEmpty).similarity_category = "low" := by
  refine ⟨rfl, rfl, ?_⟩
  show categorizeSimilarity 0 = "low"
  unfold categorizeSimilarity
  rw [if_neg (by norm_num), if_neg (by norm_num)]

set_option maxRecDepth 40000 in
/-- Claim C3, counterexample: the `SequenceMatcher` ratio depends on
argument order.  On A = "ppxqqyrr", B = "qqzrrwpp" the greedy matcher keeps
only the leftmost-in-A maximal block "pp" (total 2 matched characters,
ratio 1/4), while on the swapped pair it keeps "qq" and then also "rr"
(total 4, ratio 1/2). -/
theorem textSimilarity_not_symmetric_eval :
    calculateTextSimilarity "ppxqqyrr".toList "qqzrrwpp".toList = 1 / 4 ∧
    calculateTextSimilarity "qqzrrwpp".toList "ppxqqyrr".toList = 1 / 2 ∧
    calculateTextSimilarity "ppxqqyrr".toList "qqzrrwpp".toList ≠
      calculateTextSimilarity "qqzrrwpp".toList "ppxqqyrr".toList := by
  have h1 : calculateTextSimilarity "ppxqqyrr".toList "qqzrrwpp".toList =
      calcRatioQ 2 16 := rfl
  have h2 : calculateTextSimilarity "qqzrrwpp".toList "ppxqqyrr".toList =
      calcRatioQ 4 16 := rfl
  rw [h1, h2]
  refine ⟨by norm_num [calcRatioQ], by norm_num [calcRatioQ], by norm_num [calcRatioQ]⟩

/-- Claim C4: similarity categorization is a three-way bucket with
inclusive lower bounds: ≥ 0.85 is "high", [0.60, 0.85) is "medium", below
0.60 is "low"; in particular 0.85 ↦ "high", 0.849999 ↦ "medium",
0.60 ↦ "medium", 0.599999 ↦ "low". -/
theorem categorizeSimilarity_buckets :
    (∀ s : ℚ,
      (85 / 100 ≤ s → categorizeSimilarity s = "high") ∧
      (60 / 100 ≤ s ∧ s < 85 / 100 → categorizeSimilarity s = "medium") ∧
      (s < 60 / 100 → categorizeSimilarity s = "low")) ∧
    categorizeSimilarity (85 / 100) = "high" ∧
    categorizeSimilarity (849999 / 1000000) = "medium" ∧
    categorizeSimilarity (60 / 100) = "medium" ∧
    categorizeSimilarity (599999 / 1000000) = "low" := by
  have H : ∀ s : ℚ,
      (85 / 100 ≤ s → categorizeSimilarity s = "high") ∧
      (60 / 100 ≤ s ∧ s < 85 / 100 → categorizeSimilarity s = "medium") ∧
      (s < 60 / 100 → categorizeSimilarity s = "low") := by
    intro s
    refine ⟨fun h => ?_, fun h => ?_, fun h => ?_⟩
    · unfold categorizeSimilarity
      rw [if_pos h]
    · unfold categorizeSimilarity
      rw [if_neg (not_le.mpr h.2), if_pos h.1]
    · unfold categorizeSimilarity
      rw [if_neg (not_le.mpr (by linarith)), if_neg (not_le.mpr h)]
  exact ⟨H, (H _).1 (by norm_num), (H _).2.1 ⟨by norm_num, by norm_num⟩,
    (H _).2.1 ⟨by norm_num, by norm_num⟩, (H _).2.2 (by norm_num)⟩

/-- Witness for C4 at concrete similarity values. -/
theorem categorizeSimilarity_buckets_app :
    categorizeSimilarity (9 / 10) = "high" ∧
    categorizeSimilarity (7 / 10) = "medium" ∧
    categorizeSimilarity (1 / 2) = "low" :=
  ⟨(categorizeSimilarity_buckets.1 (9 / 10)).1 (by norm_num),
   (categorizeSimilarity_buckets.1 (7 / 10)).2.1 ⟨by norm_num, by norm_num⟩,
   (categorizeSimilarity_buckets.1 (1 / 2)).2.2 (by norm_num)⟩

/-- Claim C10: the result's `topic` is always source A's (the Grokipedia
page's) title; source B's title plays no part. -/
theorem compare_topic_eq_title (dmp : DiffMatchPatch) (g w : PageContent) :
    (compare dmp g w).topic = g.title := rfl

/-- Claim C9: the word-count difference is `wordCountA − wordCountB`, the
percentage difference is that difference relative to B's word count times
100 (and 0 when B's word count is 0), and the citation difference is
`len(citationsA) − len(citationsB)`. -/
theorem compare_scalar_metrics (dmp : DiffMatchPatch) (g w : PageContent) :
    (compare dmp g w).word_count_diff = (g.word_count : ℤ) - (w.word_count : ℤ) ∧
    (0 < w.word_count →
      (compare dmp g w).word_count_diff_pct =
        (((g.word_count : ℤ) - (w.word_count : ℤ) : ℤ) : ℚ) / (w.word_count : ℚ) * 100) ∧
    (w.word_count = 0 → (compare dmp g w).word_count_diff_pct = 0) ∧
    (compare dmp g w).citation_diff =
      (g.citations.length : ℤ) - (w.citations.length : ℤ) := by
  refine ⟨rfl, fun h => ?_, fun h => ?_, rfl⟩
  · show (if 0 < w.word_count then _ else _) = _
    rw [if_pos h]
  · show (if 0 < w.word_count then _ else _) = _
    rw [if_neg (by omega)]

/-- Witness for C9 on concrete pages (word counts 2 and 4, citation counts
1 and 0). -/
theorem compare_scalar_metrics_app :
    (compare dmpFull pageAlpha pageBeta).word_count_diff = -2 ∧
    (compare dmpFull pageAlpha pageBeta).word_count_diff_pct = -50 ∧
    (compare dmpFull pageAlpha pageBeta).citation_diff = 1 := by
  obtain ⟨h1, h2, -, h4⟩ := compare_scalar_metrics dmpFull pageAlpha pageBeta
  refine ⟨by rw [h1]; decide, ?_, by rw [h4]; decide⟩
  rw [h2 (by decide)]
  norm_num [pageAlpha, pageBeta]

/-- Claim C7: `_find_unique_sections` returns the sorted set difference of
the key-sets; the two directions are disjoint, each strictly sorted
(ascending, in the lexicographic string order), and together with the
intersection they reconstruct the union of the key-sets. -/
theorem findUniqueSections_spec (s1 s2 : List (String × String)) :
    findUniqueSections s1 s2 = (sectionKeys s1 \ sectionKeys s2).sort (· ≤ ·) ∧
    (∀ x, x ∈ findUniqueSections s1 s2 ↔
      x ∈ sectionKeys s1 ∧ x ∉ sectionKeys s2) ∧
    (∀ x, x ∈ findUniqueSections s1 s2 → x ∉ findUniqueSections s2 s1) ∧
    List.Sorted (· < ·) (findUniqueSections s1 s2) ∧
    (∀ x, (x ∈ findUniqueSections s1 s2 ∨ x ∈ findUniqueSections s2 s1 ∨
        x ∈ sectionKeys s1 ∩ sectionKeys s2) ↔
      x ∈ sectionKeys s1 ∪ sectionKeys s2) := by
  refine ⟨rfl, fun x => ?_, fun x hx => ?_, Finset.sort_sorted_lt _, fun x => ?_⟩
  · simp [findUniqueSections, Finset.mem_sort, Finset.mem_sdiff]
  · simp only [findUniqueSections, Finset.mem_sort, Finset.mem_sdiff] at hx ⊢
    tauto
  · simp only [findUniqueSections, Finset.mem_sort, Finset.mem_sdiff,
      Finset.mem_inter, Finset.mem_union]
    tauto

/-- Witness for C7 at concrete section lists. -/
theorem findUniqueSections_spec_app :
    findUniqueSections [("B", "b"), ("A", "a")] [("A", "c")] =
      (sectionKeys [("B", "b"), ("A", "a")] \ sectionKeys [("A", "c")]).sort (· ≤ ·) ∧
    ("B" ∈ findUniqueSections [("B", "b"), ("A", "a")] [("A", "c")] ↔
      "B" ∈ sectionKeys [("B", "b"), ("A", "a")] ∧ "B" ∉ sectionKeys [("A", "c")]) ∧
    List.Sorted (· < ·) (findUniqueSections [("B", "b"), ("A", "a")] [("A", "c")]) :=
  ⟨(findUniqueSections_spec _ _).1, (findUniqueSections_spec _ [("A", "c")]).2.1 "B",
    (findUniqueSections_spec [("B", "b"), ("A", "a")] [("A", "c")]).2.2.2.1⟩

/-- Claim C8: section overlap is the Jaccard similarity of the key-sets
(with Lean's `0`-valued division by zero agreeing with the source's 0.0
guards), it is 0.0 whenever either sections mapping is empty, and 1.0 when
both have the same nonempty key-set. -/
theorem sectionOverlap_jaccard (s1 s2 : List (String × String)) :
    calculateSectionOverlap s1 s2 =
      ((sectionKeys s1 ∩ sectionKeys s2).card : ℚ) /
        ((sectionKeys s1 ∪ sectionKeys s2).card : ℚ) ∧
    (s1 = [] ∨ s2 = [] → calculateSectionOverlap s1 s2 = 0) ∧
    (sectionKeys s1 = sectionKeys s2 → s1 ≠ [] →
      calculateSectionOverlap s1 s2 = 1) := by
  have hmain : calculateSectionOverlap s1 s2 =
      ((sectionKeys s1 ∩ sectionKeys s2).card : ℚ) /
        ((sectionKeys s1 ∪ sectionKeys s2).card : ℚ) := by
    unfold calculateSectionOverlap
    dsimp only
    split_ifs with h h2
    · rcases h with h | h <;> subst h <;>
        simp [sectionKeys]
    · rfl
    · push_neg at h
      exact absurd (Finset.card_pos.mpr
        (Finset.Nonempty.mono Finset.subset_union_left
          (sectionKeys_nonempty h.1))) h2
  refine ⟨hmain, fun h => ?_, fun hk h1 => ?_⟩
  · unfold calculateSectionOverlap
    rw [if_pos h]
  · rw [hmain, hk, Finset.inter_self, Finset.union_self, div_self]
    rw [Nat.cast_ne_zero]
    exact Finset.card_ne_zero.mpr (hk ▸ sectionKeys_nonempty h1)

/-- Witness for C8: same nonempty key-set gives 1, an empty side gives 0,
and a concrete Jaccard value. -/
theorem sectionOverlap_jaccard_app :
    calculateSectionOverlap [("A", "x")] [("A", "y")] = 1 ∧
    calculateSectionOverlap ([] : List (String × String)) [("A", "y")] = 0 ∧
    calculateSectionOverlap [("A", "x")] [("A", "y")] =
      ((sectionKeys [("A", "x")] ∩ sectionKeys [("A", "y")]).card : ℚ) /
        ((sectionKeys [("A", "x")] ∪ sectionKeys [("A", "y")]).card : ℚ) :=
  ⟨(sectionOverlap_jaccard _ _).2.2 (by decide) (by decide),
    (sectionOverlap_jaccard _ _).2.1 (Or.inl rfl),
    (sectionOverlap_jaccard _ _).1⟩

/-- Claim C5: `compare` is a total function of its record inputs (the model
is a plain function, so every well-formed pair yields a `ComparisonResult`),
and every division is guarded to 0.0 on a zero denominator: the word-count
percentage when B's word count is 0, the section overlap when either
sections mapping is empty, the text similarity when either text is empty,
the subjectivity score when the text splits into no words, and the simple
sentiment when no sentiment words occur. -/
theorem compare_division_guards (dmp : DiffMatchPatch) (g w : PageContent)
    (t : List Char) :
    (w.word_count = 0 → (compare dmp g w).word_count_diff_pct = 0) ∧
    (g.sections = [] ∨ w.sections = [] → (compare dmp g w).section_overlap = 0) ∧
    (g.text_content = [] ∨ w.text_content = [] →
      (compare dmp g w).text_similarity = 0) ∧
    (splitWs (t.map Char.toLower) = [] →
      (calculateBiasMetrics t).subjectivity_score = 0) ∧
    ((positiveWords.map fun wd => countSubstr t wd.toList).sum +
        (negativeWords.map fun wd => countSubstr t wd.toList).sum = 0 →
      calculateSimpleSentiment t = 0) := by
  refine ⟨fun h => ?_, fun h => ?_, fun h => ?_, fun h => ?_, fun h => ?_⟩
  · show (if 0 < w.word_count then _ else _) = _
    rw [if_neg (by omega)]
  · show calculateSectionOverlap g.sections w.sections = 0
    unfold calculateSectionOverlap
    rw [if_pos h]
  · show calculateTextSimilarity g.text_content w.text_content = 0
    unfold calculateTextSimilarity
    rw [if_pos h]
  · unfold calculateBiasMetrics
    split_ifs with ht
    · rfl
    · simp only [h, List.length_nil, lt_self_iff_false, if_false]
  · unfold calculateSimpleSentiment
    rw [if_pos h]

/-- Witness for C5 on a page with empty everything and on whitespace-only
and sentiment-free texts. -/
theorem compare_division_guards_app :
    (compare dmpFull pageAlpha pageEmpty).word_count_diff_pct = 0 ∧
    (compare dmpFull pageAlpha pageEmpty).section_overlap = 0 ∧
    (compare dmpFull pageAlpha pageEmpty).text_similarity = 0 ∧
    (calculateBiasMetrics [' ']).subjectivity_score = 0 ∧
    calculateSimpleSentiment ['z'] = 0 :=
  ⟨(compare_division_guards dmpFull pageAlpha pageEmpty [' ']).1 rfl,
    (compare_division_guards dmpFull pageAlpha pageEmpty [' ']).2.1 (Or.inr rfl),
    (compare_division_guards dmpFull pageAlpha pageEmpty [' ']).2.2.1 (Or.inr rfl),
    (compare_division_guards dmpFull pageAlpha pageEmpty [' ']).2.2.2.1 (by decide),
    (compare_division_guards dmpFull pageAlpha pageEmpty ['z']).2.2.2.2 (by decide)⟩

/-- Claim C6 (amended: the unique-section entries name up to the first 3
unique sections but do not state the total count): the key-differences list
always begins with the similarity line, followed in fixed order by the
word-count entry iff `|pct| > 25` (phrased for whichever source is longer),
the citation entry iff `|diff| > 5`, the sections unique to A if any, the
sections unique to B if any, and the infobox-mismatch entry iff exactly one
side has an infobox; the length of the list is one plus the number of
triggered entries. -/
theorem keyDifferences_structure (r : ComparisonResult) :
    (identifyKeyDifferences r).head? =
      some ("Text similarity: " ++ formatPercent2 r.text_similarity ++ " (" ++
        r.similarity_category ++ ")") ∧
    identifyKeyDifferences r =
      ("Text similarity: " ++ formatPercent2 r.text_similarity ++ " (" ++
        r.similarity_category ++ ")") ::
      ((if 25 < |r.word_count_diff_pct| then
          [if 0 < r.word_count_diff then
            "Grokipedia version is " ++ formatFixed |r.word_count_diff_pct| 1 ++
              "% longer (" ++ toString r.grokipedia_page.word_count ++ " vs " ++
              toString r.wikipedia_page.word_count ++ " words)"
          else
            "Wikipedia version is " ++ formatFixed |r.word_count_diff_pct| 1 ++
              "% longer (" ++ toString r.wikipedia_page.word_count ++ " vs " ++
              toString r.grokipedia_page.word_count ++ " words)"]
        else []) ++
      (if 5 < |r.citation_diff| then
          [if 0 < r.citation_diff then
            "Grokipedia has " ++ toString r.citation_diff ++ " more citations (" ++
              toString r.citation_count_grokipedia ++ " vs " ++
              toString r.citation_count_wikipedia ++ ")"
          else
            "Wikipedia has " ++ toString |r.citation_diff| ++ " more citations (" ++
              toString r.citation_count_wikipedia ++ " vs " ++
              toString r.citation_count_grokipedia ++ ")"]
        else []) ++
      (if r.unique_to_grokipedia ≠ [] then
          ["Grokipedia has unique sections: " ++
            String.intercalate ", " (r.unique_to_grokipedia.take 3)]
        else []) ++
      (if r.unique_to_wikipedia ≠ [] then
          ["Wikipedia has unique sections: " ++
            String.intercalate ", " (r.unique_to_wikipedia.take 3)]
        else []) ++
      (if r.has_infobox_grokipedia ≠ r.has_infobox_wikipedia then
          [if r.has_infobox_grokipedia then
            "Grokipedia has an infobox, Wikipedia does not"
          else "Wikipedia has an infobox, Grokipedia does not"]
        else [])) ∧
    (identifyKeyDifferences r).length =
      1 + ((if 25 < |r.word_count_diff_pct| then 1 else 0) +
        (if 5 < |r.citation_diff| then 1 else 0) +
        (if r.unique_to_grokipedia ≠ [] then 1 else 0) +
        (if r.unique_to_wikipedia ≠ [] then 1 else 0) +
        (if r.has_infobox_grokipedia ≠ r.has_infobox_wikipedia then 1 else 0)) := by
  refine ⟨rfl, rfl, ?_⟩
  unfold identifyKeyDifferences
  dsimp only
  split_ifs <;> simp

/-- Witness for C6 on a result triggering only the unique-to-A entry. -/
theorem keyDifferences_structure_app :
    (identifyKeyDifferences resultUniq4).head? =
      some ("Text similarity: " ++ formatPercent2 resultUniq4.text_similarity ++
        " (" ++ resultUniq4.similarity_category ++ ")") ∧
    (identifyKeyDifferences resultUniq4).length = 2 := by
  refine ⟨(keyDifferences_structure resultUniq4).1, ?_⟩
  rw [(keyDifferences_structure resultUniq4).2.2]
  rw [if_neg (by norm_num [resultUniq4]), if_neg (by norm_num [resultUniq4]),
    if_pos (show resultUniq4.unique_to_grokipedia ≠ [] by decide),
    if_neg (show ¬resultUniq4.unique_to_wikipedia ≠ [] by decide),
    if_neg (by decide)]

/-- Claim C6, counterexample to "with the total count": two results whose
unique-to-Grokipedia lists share the first three names but have different
totals (4 versus 5) produce identical key-difference lists, so no entry
can state the total count. -/
theorem keyDifferences_no_total_count_eval :
    identifyKeyDifferences resultUniq4 = identifyKeyDifferences resultUniq5 ∧
    identifyKeyDifferences resultUniq4 =
      ["Text similarity: 0.00% ()",
        "Grokipedia has unique sections: Alpha, Beta, Gamma"] ∧
    resultUniq4.unique_to_grokipedia.length = 4 ∧
    resultUniq5.unique_to_grokipedia.length = 5 := by
  refine ⟨by with_unfolding_all decide, by with_unfolding_all decide, rfl, rfl⟩

/-- Claim C3 (amended: the ratio is symmetric when the two texts are equal
or either is empty; in general the greedy matcher is direction-dependent,
see the counterexample): under these conditions
`_calculate_text_similarity` is order-independent. -/
theorem textSimilarity_symm_of_eq_or_empty (text1 text2 : List Char)
    (h : text1 = text2 ∨ text1 = [] ∨ text2 = []) :
    calculateTextSimilarity text1 text2 = calculateTextSimilarity text2 text1 := by
  rcases h with h | h | h
  · rw [h]
  · subst h
    unfold calculateTextSimilarity
    rw [if_pos (Or.inl rfl), if_pos (Or.inr rfl)]
  · subst h
    unfold calculateTextSimilarity
    rw [if_pos (Or.inr rfl), if_pos (Or.inl rfl)]

/-- Witness for the amended C3 with one empty side. -/
theorem textSimilarity_symm_of_eq_or_empty_app :
    calculateTextSimilarity [] "x".toList = calculateTextSimilarity "x".toList [] :=
  textSimilarity_symm_of_eq_or_empty [] "x".toList (Or.inr (Or.inl rfl))

/-! ### The greedy matcher on two identical sequences

The following lemmas show `find_longest_match` on `(a, a)` over the full
range returns the whole-string block `(0, 0, |a|)`, for an arbitrary
popularity predicate: the scan can only ever record diagonal blocks
(an off-diagonal run forces an equal-or-longer diagonal run at an earlier
scan position), and the extension loops then grow a diagonal block to the
whole string. -/

/-- Unfold `eligible` into its propositional content. -/
theorem eligible_eq_true_iff (a b : List Char) (pop : Char → Bool) (i j : Nat) :
    eligible a b pop i j = true ↔
      ∃ c, a.get? i = some c ∧ b.get? j = some c ∧ pop c = false := by
  unfold eligible
  cases ha : a.get? i with
  | none => simp
  | some x =>
    cases hb : b.get? j with
    | none => simp
    | some y =>
      constructor
      · intro h
        rw [Bool.and_eq_true, decide_eq_true_eq, Bool.not_eq_true'] at h
        exact ⟨y, by rw [h.1], rfl, h.2⟩
      · rintro ⟨c, h1, h2, hp⟩
        rw [Option.some.injEq] at h1 h2
        subst h1
        subst h2
        rw [Bool.and_eq_true, decide_eq_true_eq, Bool.not_eq_true']
        exact ⟨rfl, hp⟩

/-- `runLen` at the full range, first row. -/
theorem runLen_zero (a b : List Char) (pop : Char → Bool) (j : Nat) :
    runLen a b pop 0 0 0 j = if eligible a b pop 0 j then 1 else 0 := rfl

/-- `runLen` at the full range, later rows, first column. -/
theorem runLen_succ_zero (a b : List Char) (pop : Char → Bool) (i : Nat) :
    runLen a b pop 0 0 (i + 1) 0 =
      if eligible a b pop (i + 1) 0 then 1 else 0 := rfl

/-- `runLen` at the full range, interior positions. -/
theorem runLen_succ_succ (a b : List Char) (pop : Char → Bool) (i j : Nat) :
    runLen a b pop 0 0 (i + 1) (j + 1) =
      if eligible a b pop (i + 1) (j + 1) then runLen a b pop 0 0 i j + 1
      else 0 := rfl

/-- A run ending at `(i, j)` has length at most `i + 1`. -/
theorem runLen_le_left_succ (a b : List Char) (pop : Char → Bool) :
    ∀ i j, runLen a b pop 0 0 i j ≤ i + 1 := by
  intro i
  induction i with
  | zero =>
    intro j
    rw [runLen_zero]
    split <;> omega
  | succ i ih =>
    intro j
    match j with
    | 0 =>
      rw [runLen_succ_zero]
      split <;> omega
    | j' + 1 =>
      rw [runLen_succ_succ]
      split
      · have := ih j'
        omega
      · omega

/-- On identical sequences, any run ending at `(i, j)` is dominated by the
diagonal run ending at `(min i j, min i j)`: the run's characters are
pairwise equal and non-popular, so the same characters support a diagonal
run at the smaller index. -/
theorem runLen_self_le_diag (a : List Char) (pop : Char → Bool) :
    ∀ i j, runLen a a pop 0 0 i j ≤ runLen a a pop 0 0 (min i j) (min i j) := by
  intro i
  induction i with
  | zero =>
    intro j
    simp only [Nat.zero_min]
    rw [runLen_zero]
    split_ifs with h
    · obtain ⟨c, hc1, _, hc3⟩ := (eligible_eq_true_iff a a pop 0 j).mp h
      rw [runLen_zero,
        if_pos ((eligible_eq_true_iff a a pop 0 0).mpr ⟨c, hc1, hc1, hc3⟩)]
    · omega
  | succ i ih =>
    intro j
    match j with
    | 0 =>
      simp only [Nat.min_zero]
      rw [runLen_succ_zero]
      split_ifs with h
      · obtain ⟨c, _, hc2, hc3⟩ := (eligible_eq_true_iff a a pop (i + 1) 0).mp h
        rw [runLen_zero,
          if_pos ((eligible_eq_true_iff a a pop 0 0).mpr ⟨c, hc2, hc2, hc3⟩)]
      · omega
    | j' + 1 =>
      rw [Nat.succ_min_succ, runLen_succ_succ]
      split_ifs with h
      · obtain ⟨c, hc1, hc2, hc3⟩ := (eligible_eq_true_iff a a pop _ _).mp h
        have hdiag : eligible a a pop (min i j' + 1) (min i j' + 1) = true := by
          rcases Nat.le_total i j' with hle | hle
          · rw [Nat.min_eq_left hle]
            exact (eligible_eq_true_iff a a pop _ _).mpr ⟨c, hc1, hc1, hc3⟩
          · rw [Nat.min_eq_right hle]
            exact (eligible_eq_true_iff a a pop _ _).mpr ⟨c, hc2, hc2, hc3⟩
        rw [runLen_succ_succ, if_pos hdiag]
        have := ih j'
        omega
      · omega

/-- Scanning pairs left of the diagonal (`j < i`) never updates a state
whose size already dominates the diagonal runs of the earlier rows. -/
theorem foldl_stepPair_lt (a : List Char) (pop : Char → Bool) (i : Nat) :
    ∀ (js : List Nat) (s : FLMState), (∀ j ∈ js, j < i) →
      (∀ d, d < i → runLen a a pop 0 0 d d ≤ s.bs) →
      js.foldl (stepPair a a pop 0 0 i) s = s := by
  intro js
  induction js with
  | nil => intro s _ _; rfl
  | cons j js ih =>
    intro s hjs hdom
    have hj := hjs j (List.mem_cons_self j js)
    have hk : runLen a a pop 0 0 i j ≤ s.bs := by
      have h1 := runLen_self_le_diag a pop i j
      rw [Nat.min_eq_right (Nat.le_of_lt hj)] at h1
      exact le_trans h1 (hdom j hj)
    have hstep : stepPair a a pop 0 0 i s j = s := by
      unfold stepPair
      dsimp only
      rw [if_neg (by omega)]
    rw [List.foldl_cons, hstep]
    exact ih s (fun j' hm => hjs j' (List.mem_cons_of_mem _ hm)) hdom

/-- Scanning pairs right of the diagonal (`i < j`) never updates a state
whose size already dominates the diagonal run of row `i`. -/
theorem foldl_stepPair_gt (a : List Char) (pop : Char → Bool) (i : Nat) :
    ∀ (js : List Nat) (s : FLMState), (∀ j ∈ js, i < j) →
      runLen a a pop 0 0 i i ≤ s.bs →
      js.foldl (stepPair a a pop 0 0 i) s = s := by
  intro js
  induction js with
  | nil => intro s _ _; rfl
  | cons j js ih =>
    intro s hjs hdom
    have hj := hjs j (List.mem_cons_self j js)
    have hk : runLen a a pop 0 0 i j ≤ s.bs := by
      have h1 := runLen_self_le_diag a pop i j
      rw [Nat.min_eq_left (Nat.le_of_lt hj)] at h1
      exact le_trans h1 hdom
    have hstep : stepPair a a pop 0 0 i s j = s := by
      unfold stepPair
      dsimp only
      rw [if_neg (by omega)]
    rw [List.foldl_cons, hstep]
    exact ih s (fun j' hm => hjs j' (List.mem_cons_of_mem _ hm)) hdom

/-- The diagonal step `(i, i)` keeps the state diagonal, does not shrink the
best size, makes it dominate the diagonal run of row `i`, and keeps the
block inside the range. -/
theorem stepPair_diag (a : List Char) (pop : Char → Bool) (i : Nat)
    (s : FLMState) (hdiag : s.bi = s.bj) :
    (stepPair a a pop 0 0 i s i).bi = (stepPair a a pop 0 0 i s i).bj ∧
    s.bs ≤ (stepPair a a pop 0 0 i s i).bs ∧
    runLen a a pop 0 0 i i ≤ (stepPair a a pop 0 0 i s i).bs ∧
    (stepPair a a pop 0 0 i s i).bi + (stepPair a a pop 0 0 i s i).bs ≤
      max (s.bi + s.bs) (i + 1) := by
  unfold stepPair
  dsimp only
  split_ifs with h
  · have hle := runLen_le_left_succ a a pop i i
    refine ⟨rfl, ?_, ?_, ?_⟩ <;> dsimp only <;> omega
  · exact ⟨hdiag, le_refl _, by omega, by omega⟩

/-- One full row of the scan on identical sequences preserves the scan
invariant, extending diagonal-run domination to row `i`. -/
theorem flmScan_row_self (a : List Char) (pop : Char → Bool) (n i : Nat)
    (hin : i < n) (s : FLMState) (hs : ScanInv a pop n i s) :
    ScanInv a pop n (i + 1) ((List.range n).foldl (stepPair a a pop 0 0 i) s) := by
  obtain ⟨hdiag, hbnd, hdom⟩ := hs
  obtain ⟨m, hm⟩ : ∃ m, n - i = m + 1 := ⟨n - i - 1, by omega⟩
  have hsplit : List.range n =
      List.range' 0 i ++ i :: List.range' (i + 1) (n - i - 1) := by
    have h1 : List.range' 0 i ++ List.range' (0 + i) (n - i) =
        List.range' 0 (n - i + i) := List.range'_append_1 0 i (n - i)
    rw [Nat.zero_add, show n - i + i = n from by omega] at h1
    rw [List.range_eq_range', ← h1, hm, List.range'_succ, Nat.add_sub_cancel]
  rw [hsplit, List.foldl_append]
  rw [foldl_stepPair_lt a pop i _ s (fun j hm => by
    rw [List.mem_range'] at hm
    omega) hdom]
  rw [List.foldl_cons]
  obtain ⟨d1, d2, d3, d4⟩ := stepPair_diag a pop i s hdiag
  rw [foldl_stepPair_gt a pop i _ _ (fun j hm => by
    rw [List.mem_range'] at hm
    omega) d3]
  refine ⟨d1, by omega, fun d hd => ?_⟩
  rcases Nat.lt_or_ge d i with hlt | hge
  · exact le_trans (hdom d hlt) d2
  · have hdi : d = i := by omega
    rw [hdi]
    exact d3

/-- After the first `r` rows of the scan on identical sequences, the scan
invariant holds. -/
theorem flmScan_rows_self (a : List Char) (pop : Char → Bool) (n : Nat) :
    ∀ r, r ≤ n →
      ScanInv a pop n r
        ((List.range r).foldl
          (fun s i => (List.range n).foldl (stepPair a a pop 0 0 i) s)
          ⟨0, 0, 0⟩) := by
  intro r
  induction r with
  | zero =>
    intro _
    exact ⟨rfl, by simp, fun d hd => absurd hd (by omega)⟩
  | succ r ih =>
    intro hr
    rw [List.range_succ, List.foldl_append, List.foldl_cons, List.foldl_nil]
    exact flmScan_row_self a pop n r (by omega) _ (ih (by omega))

/-- The full scan of `find_longest_match` on identical sequences produces a
diagonal in-range best block. -/
theorem flmScan_self (a : List Char) (pop : Char → Bool) (n : Nat) :
    ScanInv a pop n n (flmScan a a pop 0 n 0 n) := by
  unfold flmScan
  have h0 : n - 0 = n := by omega
  rw [h0, ← List.range_eq_range']
  exact flmScan_rows_self a pop n n (le_refl n)

/-- On a single sequence, in-range positions match themselves. -/
theorem charsMatch_self (a : List Char) (i : Nat) (h : i < a.length) :
    charsMatch a a i i = true := by
  unfold charsMatch
  cases hg : a.get? i with
  | none =>
    rw [List.get?_eq_none] at hg
    omega
  | some c => simp

/-- The leftward extension loop grows a diagonal block on identical
sequences all the way to the start of the range. -/
theorem extendLeftF_self_diag (a : List Char) :
    ∀ d k, d ≤ a.length →
      extendLeftF a a 0 0 d ⟨d, d, k⟩ = ⟨0, 0, k + d⟩ := by
  intro d
  induction d with
  | zero => intro k _; rfl
  | succ d ih =>
    intro k hd
    simp only [extendLeftF]
    rw [if_pos ⟨by omega, by omega, by
      rw [Nat.add_sub_cancel]
      exact charsMatch_self a d (by omega)⟩]
    rw [Nat.add_sub_cancel, ih (k + 1) (by omega)]
    congr 1
    omega

/-- The rightward extension loop grows a start-anchored diagonal block on
identical sequences to the whole sequence. -/
theorem extendRightF_self (a : List Char) :
    ∀ f m, a.length = m + f →
      extendRightF a a a.length a.length f ⟨0, 0, m⟩ = ⟨0, 0, a.length⟩ := by
  intro f
  induction f with
  | zero =>
    intro m hm
    show (⟨0, 0, m⟩ : FLMState) = _
    congr 1
    omega
  | succ f ih =>
    intro m hm
    simp only [extendRightF]
    rw [if_pos ⟨by omega, by omega, by
      rw [Nat.zero_add]
      exact charsMatch_self a m (by omega)⟩]
    exact ih (m + 1) (by omega)

/-- `find_longest_match` on two copies of a sequence, over the full range,
returns the whole-sequence block, for any popularity predicate. -/
theorem findLongestMatch_self (a : List Char) (pop : Char → Bool) :
    findLongestMatch a a pop 0 a.length 0 a.length = ⟨0, 0, a.length⟩ := by
  obtain ⟨hdiag, hbnd, -⟩ := flmScan_self a pop a.length
  unfold findLongestMatch extendLeft
  rcases hx : flmScan a a pop 0 a.length 0 a.length with ⟨bi, bj, bs⟩
  rw [hx] at hdiag hbnd
  dsimp only at hdiag hbnd ⊢
  subst hdiag
  rw [extendLeftF_self_diag a bi bs (by omega)]
  unfold extendRight
  dsimp only
  exact extendRightF_self a _ _ (by omega)

/-- `get_matching_blocks` on two copies of a nonempty sequence matches the
whole sequence. -/
theorem totalMatches_self (a : List Char) (pop : Char → Bool) (hne : a ≠ []) :
    totalMatches a a pop (a.length + a.length + 1) 0 a.length 0 a.length =
      a.length := by
  have hlen : a.length ≠ 0 := by
    intro h
    exact hne (List.length_eq_zero.mp h)
  unfold totalMatches
  rw [findLongestMatch_self]
  dsimp only
  rw [if_neg hlen, if_neg (by omega), if_neg (by omega)]
  omega

/-- `SequenceMatcher(None, a, a).ratio()` is 1 for nonempty `a`. -/
theorem seqRatio_self (a : List Char) (hne : a ≠ []) : seqRatio a a = 1 := by
  have hlen : a.length ≠ 0 := by
    intro h
    exact hne (List.length_eq_zero.mp h)
  unfold seqRatio
  rw [totalMatches_self a (popularB a) hne]
  unfold calcRatioQ
  rw [if_pos (by omega)]
  have h : ((a.length + a.length : ℕ) : ℚ) = 2 * (a.length : ℚ) := by
    push_cast
    ring
  rw [h, div_self (mul_ne_zero two_ne_zero (Nat.cast_ne_zero.mpr hlen))]

/-- Claim C2 (amended: for every page pair sharing the same nonempty text;
for the empty text the comparator's empty-input guard returns 0.0 and
category "low", see the counterexample): comparing a page against one with
identical `textContent` yields text similarity exactly 1.0 and category
"high". -/
theorem textSimilarity_self_nonempty_eq_one (dmp : DiffMatchPatch)
    (g w : PageContent) (heq : g.text_content = w.text_content)
    (hne : g.text_content ≠ []) :
    (compare dmp g w).text_similarity = 1 ∧
    (compare dmp g w).similarity_category = "high" := by
  have hsim : calculateTextSimilarity g.text_content w.text_content = 1 := by
    rw [← heq]
    unfold calculateTextSimilarity
    rw [if_neg (by simp [hne])]
    apply seqRatio_self
    simp [hne]
  refine ⟨hsim, ?_⟩
  show categorizeSimilarity
    (calculateTextSimilarity g.text_content w.text_content) = "high"
  rw [hsim]
  unfold categorizeSimilarity
  rw [if_pos (by norm_num)]

/-- Witness for the amended C2 on two concrete pages sharing the text
"ab". -/
theorem textSimilarity_self_nonempty_eq_one_app :
    pageAlpha.text_content = pageBeta.text_content ∧
    pageAlpha.text_content ≠ [] ∧
    (compare dmpFull pageAlpha pageBeta).text_similarity = 1 ∧
    (compare dmpFull pageAlpha pageBeta).similarity_category = "high" :=
  ⟨rfl, by decide,
    (textSimilarity_self_nonempty_eq_one dmpFull pageAlpha pageBeta rfl
      (by decide)).1,
    (textSimilarity_self_nonempty_eq_one dmpFull pageAlpha pageBeta rfl
      (by decide)).2⟩
